import Mathlib

/-!
Verification of the course-selling backend's credential and access-control
subsystem, shallowly embedded from the TypeScript sources:

* `src/backend/util tools/auth.util.ts` — password hashing and verification
  (`createPasswordHash`, `verifyPassword`);
* `src/backend/db/queries/auth.queries.ts` — signup, login, and user lookup
  (`createNewUser`, `loginUser`, `getUserById`, helper `checkEmail`);
* the course queries file — `activeCourse`, `detailCourse`, `isUserEnrolled`,
  `getCourseContent`;
* the drizzle schema — tables `users`, `courses`, `course_content`,
  `purchase_history`, `course_enrollments` and the `purchase_status` enum.

External collaborators (Node's `crypto.pbkdf2Sync`, `crypto.randomBytes`,
`crypto.randomUUID`, the Postgres store and its exceptions) are passed in as
explicit parameters: a key-derivation function is an arbitrary function from
(password, salt, iterations, keylen, digest) to a byte list, random bytes and
the generated UUID are parameters, and each database call's outcome is an
`Except` value (`.error` models a thrown exception caught by the source's
`try/catch`).  `Buffer.toString("hex")` is modelled concretely by `hexEncode`.
-/

namespace CourseSelling

/-- A byte, as produced by Node's crypto primitives. -/
abbrev Byte := Fin 256

/-- The digest algorithm tag passed to `crypto.pbkdf2Sync` (the source always
passes the string "sha512"). -/
inductive Digest where
  | sha512
deriving Repr, DecidableEq

/-- Digest width in bits: SHA-512 has a 512-bit digest. -/
def Digest.bits : Digest → Nat
  | .sha512 => 512

/-- Abstract model of `crypto.pbkdf2Sync(password, salt, iterations, keylen,
digest)`: an arbitrary (hence deterministic) function to a byte buffer. -/
abbrev Kdf := String → String → Nat → Nat → Digest → List Byte

/-- Lower-case hex digit for a value below 16, as produced by
`Buffer.toString("hex")`. -/
def hexDigit (n : Nat) : Char :=
  if n < 10 then Char.ofNat (48 + n) else Char.ofNat (87 + n)

/-- Two-character lower-case hex rendering of one byte. -/
def byteToHex (b : Byte) : String :=
  String.mk [hexDigit (b.val / 16), hexDigit (b.val % 16)]

/-- `Buffer.toString("hex")`: concatenated two-digit hex renderings. -/
def hexEncode : List Byte → String
  | [] => ""
  | b :: bs => byteToHex b ++ hexEncode bs

/-- `c` is a lower-case hexadecimal digit. -/
def isHexChar (c : Char) : Bool :=
  (decide ('0' ≤ c) && decide (c ≤ '9')) || (decide ('a' ≤ c) && decide (c ≤ 'f'))

/-- Every character of `s` is a lower-case hexadecimal digit. -/
def isHexString (s : String) : Bool :=
  s.data.all isHexChar

/-- Result of `createPasswordHash` in `auth.util.ts`: the derived hash and the
salt, both hex text. -/
structure HashResult where
  hashedPassword : String
  salt : String
deriving Repr, DecidableEq

/-- `createPasswordHash` from `auth.util.ts`:
```ts
const salt = crypto.randomBytes(16).toString("hex");
const hash = crypto.pbkdf2Sync(password, salt, 100000, 64, "sha512").toString("hex");
return { hashedPassword: hash, salt: salt };
```
`randomBytes` models `crypto.randomBytes` (count of requested bytes in). -/
def createPasswordHash (kdf : Kdf) (randomBytes : Nat → List Byte)
    (password : String) : HashResult :=
  let salt := hexEncode (randomBytes 16)
  let hash := hexEncode (kdf password salt 100000 64 Digest.sha512)
  { hashedPassword := hash, salt := salt }

/-- `verifyPassword` from `auth.util.ts`: recompute the hash from the supplied
password and stored salt with identical parameters and compare. -/
def verifyPassword (kdf : Kdf) (password storedHash storedSalt : String) : Bool :=
  let hash := hexEncode (kdf password storedSalt 100000 64 Digest.sha512)
  hash == storedHash

-- Basic facts about the hex encoding.

set_option maxRecDepth 4096

theorem byteToHex_length (b : Byte) : (byteToHex b).length = 2 := by
  revert b; decide

theorem byteToHex_isHex (b : Byte) : isHexString (byteToHex b) = true := by
  revert b; decide

theorem hexEncode_length (bs : List Byte) :
    (hexEncode bs).length = 2 * bs.length := by
  induction bs with
  | nil => rfl
  | cons b bs ih =>
    simp [hexEncode, String.length_append, byteToHex_length, ih,
      Nat.mul_succ, Nat.mul_add]
    omega

theorem hexEncode_isHex (bs : List Byte) :
    isHexString (hexEncode bs) = true := by
  induction bs with
  | nil => rfl
  | cons b bs ih =>
    have hb := byteToHex_isHex b
    simp only [isHexString, hexEncode] at *
    simp [String.data_append, List.all_append, hb, ih]

-- ## Data model (drizzle schema) and auth queries (`auth.queries.ts`)

/-- A row of `users_table`.  `role` is the `user_role` enum, kept as the
string the TypeScript layer sees ("admin" or "consumer"); timestamps are
abstract instants. -/
structure User where
  id : String
  full_name : String
  email : String
  hashedPassword : String
  saltPassword : String
  created_at : Nat
  updated_at : Nat
  role : String
  is_active : Bool
deriving Repr, DecidableEq

/-- `PublicUser` from `auth.types.ts`: `Omit<User, "hashedPassword" | "saltPassword">`.
By construction this type has no password-hash and no salt field. -/
structure PublicUser where
  id : String
  full_name : String
  email : String
  created_at : Nat
  updated_at : Nat
  role : String
  is_active : Bool
deriving Repr, DecidableEq

/-- The destructuring `const { hashedPassword, saltPassword, ...publicUser } = user`
used at every return boundary: drop exactly the two sensitive fields. -/
def toPublicUser (u : User) : PublicUser :=
  { id := u.id, full_name := u.full_name, email := u.email,
    created_at := u.created_at, updated_at := u.updated_at,
    role := u.role, is_active := u.is_active }

/-- `DbResult<T>` from `results.types.ts`: `data`, `error` and `count` are
optional fields. -/
structure DbResult (T : Type) where
  success : Bool
  data : Option T := none
  error : Option String := none
  count : Option Nat := none
deriving Repr, DecidableEq

/-- `SignupRequest` from `auth.types.ts` (`role?` is optional). -/
structure SignupRequest where
  full_name : String
  email : String
  password : String
  role : Option String := none
deriving Repr, DecidableEq

/-- `LoginRequest` from `auth.types.ts`. -/
structure LoginRequest where
  email : String
  password : String
deriving Repr, DecidableEq

/-- `db.query.users_table.findFirst({ where: eq(users.email, email) })`. -/
def findUserByEmail (store : List User) (email : String) : Option User :=
  store.find? (fun u => u.email == email)

/-- `db.query.users_table.findFirst({ where: eq(users_table.id, userId) })`. -/
def findUserById (store : List User) (id : String) : Option User :=
  store.find? (fun u => u.id == id)

/-- `checkEmail` helper in `auth.queries.ts`.  `outcome` is what the store's
`findFirst` produced (`.error` = a thrown exception, caught by the source's
`catch` and returned as a failure). -/
def checkEmail (outcome : Except String (Option User)) : DbResult Bool :=
  match outcome with
  | .error msg => { success := false, error := some msg }
  | .ok user => { success := true, data := some user.isSome }

/-- `createNewUser` from `auth.queries.ts`.  External inputs are explicit:
`kdf`/`randomBytes` feed `createPasswordHash`, `userId` is the
`crypto.randomUUID()` result, `now` is the store's `NOW()` default for the
timestamp columns, `checkOutcome` is the store outcome seen by `checkEmail`,
and `insertFailure` is `some msg` when the insert throws (the thrown error is
caught and returned as a generic failure carrying its message). -/
def createNewUser (kdf : Kdf) (randomBytes : Nat → List Byte) (userId : String)
    (now : Nat) (checkOutcome : Except String (Option User))
    (insertFailure : Option String) (signupData : SignupRequest) :
    DbResult PublicUser :=
  let role := signupData.role.getD "consumer"
  if signupData.full_name == "" || signupData.email == "" ||
      signupData.password == "" then
    { success := false,
      error := some "All fields are required: full_name, email, and password" }
  else if role != "admin" && role != "consumer" then
    { success := false, error := some "Invalid user role" }
  else
    let emailExists := checkEmail checkOutcome
    if !emailExists.success then
      { success := false, error := emailExists.error }
    else if emailExists.data == some true then
      { success := false, error := some "Email already registered" }
    else
      let hp := createPasswordHash kdf randomBytes signupData.password
      match insertFailure with
      | some msg => { success := false, error := some msg }
      | none =>
        let newUser : User :=
          { id := userId, full_name := signupData.full_name,
            email := signupData.email, hashedPassword := hp.hashedPassword,
            saltPassword := hp.salt, created_at := now, updated_at := now,
            role := role, is_active := true }
        { success := true, data := some (toPublicUser newUser) }

/-- `loginUser` from `auth.queries.ts`: find by email, reject missing user and
wrong password with the same message, reject inactive accounts before the
password is ever verified, and return the public projection on success. -/
def loginUser (kdf : Kdf) (store : List User) (loginData : LoginRequest) :
    DbResult PublicUser :=
  if loginData.email == "" || loginData.password == "" then
    { success := false, error := some "Email and password are required" }
  else
    match findUserByEmail store loginData.email with
    | none => { success := false, error := some "Invalid email or password" }
    | some user =>
      if !user.is_active then
        { success := false, error := some "Account is deactivated" }
      else if !(verifyPassword kdf loginData.password user.hashedPassword
          user.saltPassword) then
        { success := false, error := some "Invalid email or password" }
      else
        { success := true, data := some (toPublicUser user) }

/-- `getUserById` from `auth.queries.ts`. -/
def getUserById (store : List User) (userId : String) : DbResult PublicUser :=
  match findUserById store userId with
  | none => { success := false, error := some "User not found" }
  | some user =>
    if !user.is_active then
      { success := false, error := some "Account is deactivated" }
    else
      { success := true, data := some (toPublicUser user) }

-- ## Course-side schema rows and queries (course queries file)

/-- A row of `courses_table`.  `admin_id` is nullable (`onDelete: "set null"`);
`price` is the `numeric` column, which drizzle surfaces as a string. -/
structure Course where
  id : String
  admin_id : Option String
  course_name : String
  price : String
  created_at : Nat
  updated_at : Nat
  is_deleted : Bool
deriving Repr, DecidableEq

/-- A row of `course_content_table`.  `course_id` is a nullable reference,
`description` is nullable text, and `order` is a nullable integer. -/
structure ContentItem where
  id : String
  course_id : Option String
  title : String
  description : Option String
  content_type : String
  content_url : String
  order : Option Int
  created_at : Nat
  updated_at : Nat
  is_deleted : Bool
deriving Repr, DecidableEq

/-- A row of `course_enrollments_table` (all columns not null). -/
structure EnrollmentRecord where
  id : String
  user_id : String
  course_id : String
  enrolled_at : Nat
  has_access : Bool
deriving Repr, DecidableEq

/-- `detailCourse` from the course queries file.  `dbOutcome` is the courses
table as the store returns it (`.error` = thrown exception); the `where`
filter and the `result[0]` projection are applied here, so a miss yields
`data = none` (JavaScript `undefined`) inside a success result. -/
def detailCourse (dbOutcome : Except String (List Course)) (id : String) :
    DbResult Course :=
  if id == "" then
    { success := false, error := some "ID is needed!" }
  else
    match dbOutcome with
    | .error e => { success := false, error := some e }
    | .ok table =>
      let course := (table.filter (fun c => c.id == id)).head?
      { success := true, data := course }

/-- `isUserEnrolled` from the course queries file, verbatim: the matching
rows are selected and `result.length > 0` is computed into `enrollment`, but
that boolean is then DISCARDED and the function returns `data: true` on every
successful query — exactly as in the source. -/
def isUserEnrolled (dbOutcome : Except String (List EnrollmentRecord))
    (userId courseId : String) : DbResult Bool :=
  if userId == "" || courseId == "" then
    { success := false, error := some "User ID and Course ID are required!" }
  else
    match dbOutcome with
    | .error e => { success := false, error := some e }
    | .ok table =>
      let enrollment :=
        decide ((table.filter (fun e =>
          e.course_id == courseId && e.user_id == userId)).length > 0)
      { success := true, data := some true }

/-- The content-access predicate in the spec's words (for comparison with
`isUserEnrolled`): a record for (userId, courseId) exists with
`has_access = true`. -/
def enrolledWithAccess (table : List EnrollmentRecord)
    (userId courseId : String) : Bool :=
  table.any (fun e =>
    e.user_id == userId && e.course_id == courseId && e.has_access)

/-- `getCourseContent` from the course queries file.  The enrollment gate uses
`isUserEnrolled`; the content select filters only on `course_id` — it neither
orders by `order` nor excludes `is_deleted` rows.  The source's
`if (!courseContent)` branch is dead (a select resolves to an array and arrays
are truthy in JavaScript), so it is not modelled. -/
def getCourseContent (enrollOutcome : Except String (List EnrollmentRecord))
    (contentOutcome : Except String (List ContentItem))
    (userId courseId : String) : DbResult (List ContentItem) :=
  if userId == "" || courseId == "" then
    { success := false, error := some "User ID and Course ID are required!" }
  else
    let isEnrolled := isUserEnrolled enrollOutcome userId courseId
    if !isEnrolled.success || isEnrolled.data != some true then
      { success := false,
        error := some "Access denied. User is not enrolled in the course." }
    else
      match contentOutcome with
      | .error e => { success := false, error := some e }
      | .ok table =>
        let courseContent := table.filter (fun c => c.course_id == some courseId)
        { success := true, data := some courseContent }

-- ## Purchase-status state machine

/-- The `purchase_status` enum from the schema:
pending → completed → refunded. -/
inductive PurchaseStatus where
  | pending
  | completed
  | refunded
deriving Repr, DecidableEq

/-- A row of `purchase_history_table` (`user_id`/`course_id` are nullable
references; `amount` is a `numeric` column surfaced as a string). -/
structure PurchaseRecord where
  id : String
  user_id : Option String
  course_id : Option String
  purchase_date : Nat
  updated_at : Nat
  status : PurchaseStatus
  payment_method : String
  amount : String
deriving Repr, DecidableEq

/-- The store state the transition operations act on. -/
structure AccessState where
  purchases : List PurchaseRecord
  enrollments : List EnrollmentRecord
deriving Repr, DecidableEq

/-- Failure kinds of the transition operations. -/
inductive TransitionError where
  | InvalidTransition
  | NotFound
deriving Repr, DecidableEq

/-- Purchase lookup by id. -/
def findPurchase (st : AccessState) (purchaseId : String) :
    Option PurchaseRecord :=
  st.purchases.find? (fun p => p.id == purchaseId)

/-- Modelled from the spec: no `confirmPayment` implementation exists under
`src/` — only the schema's `purchase_status` enum and its workflow comment
("Payment confirmed -> update status='completed', create enrollment").
Following spec §4.3: valid only from `pending`; sets the status to `completed`
and creates or updates the (user, course) EnrollmentRecord with
`has_access = true`, setting `enrolled_at` on first completion.  An `.error`
result returns no new state, so the caller's state is unchanged. -/
def confirmPayment (now : Nat) (newEnrollmentId : String) (st : AccessState)
    (purchaseId : String) : Except TransitionError AccessState :=
  match findPurchase st purchaseId with
  | none => .error .NotFound
  | some p =>
    match p.status with
    | .pending =>
      let updated := { p with status := PurchaseStatus.completed,
                              updated_at := now }
      let purchases := st.purchases.map (fun q =>
        if q.id == purchaseId then updated else q)
      let isMatch := fun (e : EnrollmentRecord) =>
        some e.user_id == p.user_id && some e.course_id == p.course_id
      let enrollments :=
        if st.enrollments.any isMatch then
          st.enrollments.map (fun e =>
            if isMatch e then { e with has_access := true } else e)
        else
          st.enrollments ++
            [{ id := newEnrollmentId, user_id := p.user_id.getD "",
               course_id := p.course_id.getD "", enrolled_at := now,
               has_access := true }]
      .ok { purchases := purchases, enrollments := enrollments }
    | _ => .error .InvalidTransition

/-- Modelled from the spec: no `processRefund` implementation exists under
`src/` — only the schema's workflow comment ("Refund processed -> update
status='refunded', revoke enrollment access").  Following spec §4.3: valid
only from `completed`; sets the status to `refunded` and sets
`has_access = false` on the matching EnrollmentRecord without deleting it.
An `.error` result returns no new state, so the caller's state is
unchanged. -/
def processRefund (now : Nat) (st : AccessState) (purchaseId : String) :
    Except TransitionError AccessState :=
  match findPurchase st purchaseId with
  | none => .error .NotFound
  | some p =>
    match p.status with
    | .completed =>
      let updated := { p with status := PurchaseStatus.refunded,
                              updated_at := now }
      let purchases := st.purchases.map (fun q =>
        if q.id == purchaseId then updated else q)
      let enrollments := st.enrollments.map (fun e =>
        if some e.user_id == p.user_id && some e.course_id == p.course_id then
          { e with has_access := false }
        else e)
      .ok { purchases := purchases, enrollments := enrollments }
    | _ => .error .InvalidTransition

-- ## Concrete sample values used by witnesses and counterexamples

/-- A concrete key-derivation function (all-zero 64-byte output). -/
def demoKdf : Kdf := fun _ _ _ _ _ => List.replicate 64 0

/-- A second, different concrete key-derivation function. -/
def demoKdf2 : Kdf := fun _ _ _ _ _ => List.replicate 64 1

/-- A concrete random-byte source returning as many zero bytes as asked. -/
def demoRandomBytes : Nat → List Byte := fun n => List.replicate n 0

-- ## Claim theorems

/-- Claim C7: for every password p, hashing then verifying round-trips —
if `createPasswordHash(p)` yields (hash, salt) then
`verifyPassword(p, hash, salt) = true`, and this holds for each of two
independent hash calls on the same p (each with its own fresh salt source). -/
theorem hash_verify_roundtrip (kdf : Kdf) (rb1 rb2 : Nat → List Byte)
    (p : String) :
    verifyPassword kdf p (createPasswordHash kdf rb1 p).hashedPassword
      (createPasswordHash kdf rb1 p).salt = true ∧
    verifyPassword kdf p (createPasswordHash kdf rb2 p).hashedPassword
      (createPasswordHash kdf rb2 p).salt = true := by
  constructor <;> simp [verifyPassword, createPasswordHash]

/-- Claim C8: `createPasswordHash` derives the hash by the key-derivation
function at exactly 100000 iterations (≥ 100000) with the SHA-512 digest
(512 bits ≥ 512), over a salt built by hex-encoding 16 requested random bytes
(32 hex characters when the source honours the request); both salt and hash
are hex text, and the hash is determined by (password, salt). -/
theorem createPasswordHash_parameters (kdf : Kdf) (rb : Nat → List Byte)
    (p : String) (hsalt : (rb 16).length = 16) :
    (createPasswordHash kdf rb p).salt = hexEncode (rb 16) ∧
    (createPasswordHash kdf rb p).hashedPassword =
      hexEncode (kdf p (createPasswordHash kdf rb p).salt 100000 64
        Digest.sha512) ∧
    100000 ≥ 100000 ∧
    Digest.bits Digest.sha512 = 512 ∧
    (createPasswordHash kdf rb p).salt.length = 32 ∧
    isHexString (createPasswordHash kdf rb p).salt = true ∧
    isHexString (createPasswordHash kdf rb p).hashedPassword = true ∧
    (∀ rb2 : Nat → List Byte,
       hexEncode (rb2 16) = (createPasswordHash kdf rb p).salt →
       (createPasswordHash kdf rb2 p).hashedPassword =
         (createPasswordHash kdf rb p).hashedPassword) := by
  refine ⟨rfl, rfl, Nat.le_refl _, rfl, ?_, hexEncode_isHex _,
    hexEncode_isHex _, ?_⟩
  · show (hexEncode (rb 16)).length = 32
    rw [hexEncode_length, hsalt]
  · intro rb2 h
    show hexEncode (kdf p (hexEncode (rb2 16)) 100000 64 Digest.sha512) =
      hexEncode (kdf p (hexEncode (rb 16)) 100000 64 Digest.sha512)
    rw [show hexEncode (rb2 16) = hexEncode (rb 16) from h]

/-- Witness for C8 at a concrete key-derivation function and byte source. -/
theorem createPasswordHash_parameters_witness :
    (createPasswordHash demoKdf demoRandomBytes "pw").salt.length = 32 :=
  (createPasswordHash_parameters demoKdf demoRandomBytes "pw"
    (by simp [demoRandomBytes])).2.2.2.2.1

/-- Claim C1 is a code bug: on an EMPTY enrollments table — so no
EnrollmentRecord at all exists for ("u1", "c1"), and in particular none with
`has_access = true` — `isUserEnrolled` nevertheless returns the success
result `data = true`, because the source discards its computed
`enrollment.length > 0` and always answers `data: true`. -/
theorem isUserEnrolled_discards_result :
    isUserEnrolled (.ok []) "u1" "c1" =
      { success := true, data := some true } ∧
    enrolledWithAccess [] "u1" "c1" = false := by
  constructor <;> rfl

/-- An enrollment granting "u1" access to "c1" (`has_access = true`). -/
def c2Enrollment : EnrollmentRecord :=
  { id := "e1", user_id := "u1", course_id := "c1", enrolled_at := 0,
    has_access := true }

/-- Content item of course "c1" with `order = 3`. -/
def c2Item3 : ContentItem :=
  { id := "i3", course_id := some "c1", title := "three", description := none,
    content_type := "video", content_url := "u3", order := some 3,
    created_at := 1, updated_at := 1, is_deleted := false }

/-- Content item of course "c1" with `order = 1`. -/
def c2Item1 : ContentItem :=
  { id := "i1", course_id := some "c1", title := "one", description := none,
    content_type := "video", content_url := "u1", order := some 1,
    created_at := 2, updated_at := 2, is_deleted := false }

/-- Content item of course "c1" with `order` null. -/
def c2ItemNull : ContentItem :=
  { id := "i0", course_id := some "c1", title := "unordered",
    description := none, content_type := "pdf", content_url := "u0",
    order := none, created_at := 3, updated_at := 3, is_deleted := false }

/-- Content item of course "c1" with `order = 2`. -/
def c2Item2 : ContentItem :=
  { id := "i2", course_id := some "c1", title := "two", description := none,
    content_type := "video", content_url := "u2", order := some 2,
    created_at := 4, updated_at := 4, is_deleted := false }

/-- A SOFT-DELETED content item of course "c1". -/
def c2ItemDeleted : ContentItem :=
  { id := "id", course_id := some "c1", title := "gone", description := none,
    content_type := "video", content_url := "ud", order := some 0,
    created_at := 5, updated_at := 5, is_deleted := true }

/-- The `course_content` table in store order: orders [3, 1, null, 2] plus a
soft-deleted item. -/
def c2Table : List ContentItem :=
  [c2Item3, c2Item1, c2ItemNull, c2Item2, c2ItemDeleted]

/-- Claim C2 is a code bug: with access granted (an enrollment with
`has_access = true` exists) and content items whose `order` values are
[3, 1, null, 2] plus one soft-deleted item, `getCourseContent` returns the
rows exactly in store order — orders [3, 1, null, 2, 0] — not in the
spec's ascending order [1, 2, 3, null], and the soft-deleted item is
included rather than excluded. -/
theorem getCourseContent_unsorted_unfiltered :
    (getCourseContent (.ok [c2Enrollment]) (.ok c2Table) "u1" "c1").data =
      some [c2Item3, c2Item1, c2ItemNull, c2Item2, c2ItemDeleted] ∧
    ((getCourseContent (.ok [c2Enrollment]) (.ok c2Table) "u1" "c1").data.map
        (fun l => l.map ContentItem.order)) =
      some [some 3, some 1, none, some 2, some 0] ∧
    ([some 3, some 1, none, some 2, some 0] : List (Option Int)) ≠
      [some 1, some 2, some 3, none] ∧
    ((getCourseContent (.ok [c2Enrollment]) (.ok c2Table) "u1" "c1").data.map
        (fun l => l.any ContentItem.is_deleted)) = some true := by
  refine ⟨rfl, rfl, by decide, rfl⟩

/-- A concrete active user for witnesses. -/
def demoUser : User :=
  { id := "u1", full_name := "Demo User", email := "a@x.com",
    hashedPassword := "h", saltPassword := "s", created_at := 0,
    updated_at := 0, role := "consumer", is_active := true }

/-- A concrete deactivated user for witnesses. -/
def demoInactiveUser : User :=
  { id := "u2", full_name := "Gone User", email := "b@x.com",
    hashedPassword := "h", saltPassword := "s", created_at := 0,
    updated_at := 0, role := "consumer", is_active := false }

/-- Claim C3: every operation that returns a user to a caller — signup via
`createNewUser`, login via `loginUser`, and `getUserById` — returns its data
as `toPublicUser` of some `User`; `PublicUser` by construction has neither a
password-hash field nor a salt field, so the hash and salt are dropped at
every such boundary. -/
theorem public_results_drop_secrets (kdf : Kdf) (rb : Nat → List Byte)
    (store : List User) (ld : LoginRequest) (uid userId : String) (now : Nat)
    (checkOutcome : Except String (Option User)) (insertFailure : Option String)
    (sd : SignupRequest) :
    (∀ pu, (createNewUser kdf rb userId now checkOutcome insertFailure
        sd).data = some pu → ∃ u, pu = toPublicUser u) ∧
    (∀ pu, (loginUser kdf store ld).data = some pu →
       ∃ u, u ∈ store ∧ pu = toPublicUser u) ∧
    (∀ pu, (getUserById store uid).data = some pu →
       ∃ u, u ∈ store ∧ pu = toPublicUser u) := by
  refine ⟨?_, ?_, ?_⟩
  · intro pu h
    rcases insertFailure with _ | msg
    · simp only [createNewUser] at h
      split at h
      · simp at h
      · split at h
        · simp at h
        · split at h
          · simp at h
          · split at h
            · simp at h
            · simp at h
              exact ⟨_, h.symm⟩
    · simp only [createNewUser] at h
      repeat' split at h
      all_goals simp at h
  · intro pu h
    unfold loginUser at h
    split at h
    · simp at h
    · split at h
      · simp at h
      · rename_i user hfind
        split at h
        · simp at h
        · split at h
          · simp at h
          · simp at h
            exact ⟨user, List.mem_of_find?_eq_some hfind, h.symm⟩
  · intro pu h
    unfold getUserById at h
    split at h
    · simp at h
    · rename_i user hfind
      split at h
      · simp at h
      · simp at h
        exact ⟨user, List.mem_of_find?_eq_some hfind, h.symm⟩

/-- Witness for C3: `getUserById` on a concrete store returns the public
projection of a stored user. -/
theorem public_results_drop_secrets_witness :
    ∃ u, u ∈ [demoUser] ∧ toPublicUser demoUser = toPublicUser u :=
  (public_results_drop_secrets demoKdf demoRandomBytes [demoUser]
    { email := "a@x.com", password := "pw" } "u1" "u9" 0 (.ok none) none
    { full_name := "n", email := "e", password := "p" }).2.2
    (toPublicUser demoUser) rfl

/-- Claim C5: with non-empty credentials, login fails with the same
undifferentiated "Invalid email or password" result both when no user has the
email and when the password fails to verify; a user with `is_active = false`
gets the distinct "Account is deactivated" result (in particular even when
the password is correct, since the branch does not consult the password); an
active user with a verifying password gets a success with the public user. -/
theorem loginUser_outcomes (kdf : Kdf) (store : List User) (ld : LoginRequest)
    (he : ld.email ≠ "") (hp : ld.password ≠ "") :
    (findUserByEmail store ld.email = none →
       loginUser kdf store ld =
         { success := false, error := some "Invalid email or password" }) ∧
    (∀ u, findUserByEmail store ld.email = some u → u.is_active = false →
       loginUser kdf store ld =
         { success := false, error := some "Account is deactivated" }) ∧
    (∀ u, findUserByEmail store ld.email = some u → u.is_active = true →
       verifyPassword kdf ld.password u.hashedPassword u.saltPassword = false →
       loginUser kdf store ld =
         { success := false, error := some "Invalid email or password" }) ∧
    (∀ u, findUserByEmail store ld.email = some u → u.is_active = true →
       verifyPassword kdf ld.password u.hashedPassword u.saltPassword = true →
       loginUser kdf store ld =
         { success := true, data := some (toPublicUser u) }) := by
  refine ⟨?_, ?_, ?_, ?_⟩
  · intro hnone
    simp [loginUser, he, hp, hnone]
  · intro u hfind hinactive
    simp [loginUser, he, hp, hfind, hinactive]
  · intro u hfind hactive hverify
    simp [loginUser, he, hp, hfind, hactive, hverify]
  · intro u hfind hactive hverify
    simp [loginUser, he, hp, hfind, hactive, hverify]

/-- Witness for C5: a deactivated concrete user yields the distinct
"Account is deactivated" failure. -/
theorem loginUser_outcomes_witness :
    loginUser demoKdf [demoInactiveUser]
      { email := "b@x.com", password := "pw" } =
      { success := false, error := some "Account is deactivated" } :=
  (loginUser_outcomes demoKdf [demoInactiveUser]
    { email := "b@x.com", password := "pw" } (by decide) (by decide)).2.1
    demoInactiveUser rfl rfl

/-- Claim C10: `loginUser` checks `is_active` before the password is
verified: for a deactivated matched user the result is the "Account is
deactivated" failure whatever the password, and the result is identical for
any two key-derivation functions — so the password hash is never computed or
compared for deactivated accounts. -/
theorem loginUser_inactive_skips_verification (kdf1 kdf2 : Kdf)
    (store : List User) (ld : LoginRequest) (u : User)
    (he : ld.email ≠ "") (hp : ld.password ≠ "")
    (hfind : findUserByEmail store ld.email = some u)
    (hinactive : u.is_active = false) :
    loginUser kdf1 store ld =
      { success := false, error := some "Account is deactivated" } ∧
    loginUser kdf1 store ld = loginUser kdf2 store ld := by
  have h1 : loginUser kdf1 store ld =
      { success := false, error := some "Account is deactivated" } := by
    simp [loginUser, he, hp, hfind, hinactive]
  have h2 : loginUser kdf2 store ld =
      { success := false, error := some "Account is deactivated" } := by
    simp [loginUser, he, hp, hfind, hinactive]
  exact ⟨h1, h1.trans h2.symm⟩

/-- Witness for C10 at a concrete store and two distinct key-derivation
functions. -/
theorem loginUser_inactive_skips_verification_witness :
    loginUser demoKdf [demoInactiveUser]
      { email := "b@x.com", password := "pw" } =
      { success := false, error := some "Account is deactivated" } ∧
    loginUser demoKdf [demoInactiveUser]
        { email := "b@x.com", password := "pw" } =
      loginUser demoKdf2 [demoInactiveUser]
        { email := "b@x.com", password := "pw" } :=
  loginUser_inactive_skips_verification demoKdf demoKdf2 [demoInactiveUser]
    { email := "b@x.com", password := "pw" } demoInactiveUser
    (by decide) (by decide) rfl rfl

/-- The message of a store uniqueness violation raised by the insert. -/
def raceErrorMessage : String :=
  "duplicate key value violates unique constraint"

/-- Counterexample to claim C4 as stated: the pre-insert check passes (the
email is absent at check time) and the insert then raises a uniqueness
violation — the race path — yet `createNewUser` surfaces the store's raw
error message, not the "Email already registered" (EmailTaken) result the
claim requires. -/
theorem createNewUser_race_counterexample :
    (createNewUser demoKdf demoRandomBytes "u1" 0 (.ok none)
        (some raceErrorMessage)
        { full_name := "Demo User", email := "a@x.com",
          password := "pw" }).error = some raceErrorMessage ∧
    raceErrorMessage ≠ "Email already registered" := by
  exact ⟨rfl, by decide⟩

/-- Claim C4 as amended: when the pre-insert existence check detects the
duplicate, signup fails with "Email already registered" (EmailTaken); but
when the check passes and the insert itself raises a uniqueness violation
(the race path), the violation is caught generically and signup fails with
the store's raw error message — it is NOT translated to EmailTaken. -/
theorem createNewUser_duplicate_email_paths (kdf : Kdf) (rb : Nat → List Byte)
    (userId : String) (now : Nat) (checkOutcome : Except String (Option User))
    (insertFailure : Option String) (sd : SignupRequest)
    (hf : sd.full_name ≠ "") (he : sd.email ≠ "") (hp : sd.password ≠ "")
    (hrole : sd.role.getD "consumer" = "admin" ∨
      sd.role.getD "consumer" = "consumer") :
    (∀ u, checkOutcome = .ok (some u) →
       createNewUser kdf rb userId now checkOutcome insertFailure sd =
         { success := false, error := some "Email already registered" }) ∧
    (∀ msg, checkOutcome = .ok none → insertFailure = some msg →
       createNewUser kdf rb userId now checkOutcome insertFailure sd =
         { success := false, error := some msg }) := by
  constructor
  · intro u hcheck
    subst hcheck
    rcases hrole with hr | hr <;>
      simp [createNewUser, checkEmail, hf, he, hp, hr]
  · intro msg hcheck hins
    subst hcheck; subst hins
    rcases hrole with hr | hr <;>
      simp [createNewUser, checkEmail, hf, he, hp, hr]

/-- Witness for the amended C4: a concrete duplicate detected by the
pre-insert check yields the EmailTaken failure. -/
theorem createNewUser_duplicate_email_paths_witness :
    createNewUser demoKdf demoRandomBytes "u1" 0 (.ok (some demoUser)) none
      { full_name := "Demo User", email := "a@x.com", password := "pw" } =
      { success := false, error := some "Email already registered" } :=
  (createNewUser_duplicate_email_paths demoKdf demoRandomBytes "u1" 0
    (.ok (some demoUser)) none
    { full_name := "Demo User", email := "a@x.com", password := "pw" }
    (by decide) (by decide) (by decide) (Or.inr rfl)).1 demoUser rfl

/-- A concrete course for the C9 witness. -/
def demoCourse : Course :=
  { id := "c1", admin_id := some "u1", course_name := "Intro",
    price := "10.00", created_at := 0, updated_at := 0, is_deleted := false }

/-- Claim C9: for a non-empty id matching no course, `detailCourse` returns
a success result whose data is `none` (JavaScript `undefined`) — not a
NotFound failure; and a failure arises only for an empty id or a store
exception. -/
theorem detailCourse_miss_is_success (table : List Course) (id : String)
    (hid : id ≠ "") (hmiss : ∀ c ∈ table, c.id ≠ id) :
    detailCourse (.ok table) id = { success := true, data := none } ∧
    (∀ (i : String) (outcome : Except String (List Course)),
       (detailCourse outcome i).success = false →
       i = "" ∨ ∃ e, outcome = .error e) := by
  constructor
  · have hfilter : table.filter (fun c => c.id == id) = [] := by
      rw [List.filter_eq_nil_iff]
      intro c hc
      simpa using hmiss c hc
    simp [detailCourse, hid, hfilter]
  · intro i outcome h
    by_cases hi : i = ""
    · exact Or.inl hi
    · right
      rcases outcome with e | t
      · exact ⟨e, rfl⟩
      · simp [detailCourse, hi] at h

/-- Witness for C9 at a concrete one-course table and a missing id. -/
theorem detailCourse_miss_is_success_witness :
    detailCourse (.ok [demoCourse]) "c2" =
      { success := true, data := none } :=
  (detailCourse_miss_is_success [demoCourse] "c2" (by decide)
    (by intro c hc; simp at hc; subst hc; decide)).1

/-- Claim C6 (state machine modelled from the spec, since no transition code
exists under `src/`): the only transitions that succeed are
pending → completed via `confirmPayment` and completed → refunded via
`processRefund`; on any record in any other status — in particular
`processRefund` on a pending record, and either operation on a refunded
record — the operation fails with `InvalidTransition`, returning no new
state, so the caller's `AccessState` (purchases and enrollments alike) is
unchanged. -/
theorem purchase_status_transitions (now : Nat) (eid : String)
    (st : AccessState) (pid : String) :
    (∀ st2, confirmPayment now eid st pid = .ok st2 →
       ∃ p, findPurchase st pid = some p ∧
         p.status = PurchaseStatus.pending) ∧
    (∀ st2, processRefund now st pid = .ok st2 →
       ∃ p, findPurchase st pid = some p ∧
         p.status = PurchaseStatus.completed) ∧
    (∀ p, findPurchase st pid = some p →
       p.status = PurchaseStatus.pending →
       ∃ st2, confirmPayment now eid st pid = .ok st2) ∧
    (∀ p, findPurchase st pid = some p →
       p.status = PurchaseStatus.completed →
       ∃ st2, processRefund now st pid = .ok st2) ∧
    (∀ p, findPurchase st pid = some p →
       p.status ≠ PurchaseStatus.pending →
       confirmPayment now eid st pid =
         .error TransitionError.InvalidTransition) ∧
    (∀ p, findPurchase st pid = some p →
       p.status ≠ PurchaseStatus.completed →
       processRefund now st pid =
         .error TransitionError.InvalidTransition) := by
  refine ⟨?_, ?_, ?_, ?_, ?_, ?_⟩
  · intro st2 h
    unfold confirmPayment at h
    split at h
    · simp at h
    · rename_i p hfind
      refine ⟨p, hfind, ?_⟩
      split at h
      · assumption
      · simp at h
  · intro st2 h
    unfold processRefund at h
    split at h
    · simp at h
    · rename_i p hfind
      refine ⟨p, hfind, ?_⟩
      split at h
      · assumption
      · simp at h
  · intro p hfind hstatus
    unfold confirmPayment
    rw [hfind]
    dsimp only
    rw [hstatus]
    exact ⟨_, rfl⟩
  · intro p hfind hstatus
    unfold processRefund
    rw [hfind]
    dsimp only
    rw [hstatus]
    exact ⟨_, rfl⟩
  · intro p hfind hstatus
    unfold confirmPayment
    rw [hfind]
    dsimp only
    cases hs : p.status
    · exact absurd hs hstatus
    · rfl
    · rfl
  · intro p hfind hstatus
    unfold processRefund
    rw [hfind]
    dsimp only
    cases hs : p.status
    · rfl
    · exact absurd hs hstatus
    · rfl

/-- A concrete pending purchase for the C6 witness. -/
def demoPendingPurchase : PurchaseRecord :=
  { id := "p1", user_id := some "u1", course_id := some "c1",
    purchase_date := 0, updated_at := 0, status := PurchaseStatus.pending,
    payment_method := "stripe", amount := "10.00" }

/-- Witness for C6: `processRefund` straight on a pending purchase fails with
`InvalidTransition`. -/
theorem purchase_status_transitions_witness :
    processRefund 1 { purchases := [demoPendingPurchase], enrollments := [] }
      "p1" = .error TransitionError.InvalidTransition :=
  (purchase_status_transitions 1 "e1"
    { purchases := [demoPendingPurchase], enrollments := [] }
    "p1").2.2.2.2.2 demoPendingPurchase rfl (by decide)

end CourseSelling
